import Mathlib

/-!
Shallow embedding of the quick_aqi repository.

This file embeds the validation, decoding and AQI-computation core of the
quick_aqi firmware (src/src/pmsa003i.rs, src/src/main.rs, src/libs/aqi/src/lib.rs)
into Lean 4 and proves the specification claims about it.

Modelling conventions:
* Bytes (u8) are natural numbers; where a claim needs the byte range it is an
  explicit hypothesis `b < 256`.  u16 arithmetic is `Nat` with explicit
  `% 65536` where the source wraps.
* f32 values and arithmetic in `calculate_aqi` are modelled by exact rational
  arithmetic over `ℚ`; the decimal breakpoint literals of the source become the
  corresponding rationals, and `libm::roundf` (round half away from zero)
  becomes `roundf` below.  The final `as u16` saturating cast becomes
  `Int.toNat` (negative values clamp to 0) followed by `min · 65535`.
* Fallible Rust functions returning `Result<T, &'static str>` become
  `Except String T`, carrying the exact message strings of the source.
* The out-of-bounds slice index that the diagnostic print in `validate_header`
  performs on a one-byte buffer is a panic in Rust; `validate_header` therefore
  returns `Option (Except String Unit)`, with `none` modelling the panic.
-/

namespace QuickAqi

/-- Color enum from src/libs/aqi/src/lib.rs. -/
inductive Color where
  | Green
  | Yellow
  | Orange
  | Red
  | Purple
  | DarkPurple
deriving DecidableEq, Repr

/-- Model of `libm::roundf`: round half away from zero, on `ℚ`. -/
def roundf (q : ℚ) : ℤ :=
  if 0 ≤ q then ⌊q + 1/2⌋ else ⌈q - 1/2⌉

/-- PM2.5 concentration breakpoints from `calculate_aqi`
(src/libs/aqi/src/lib.rs lines 52-59). -/
def PM25_BREAKPOINTS : List (ℚ × ℚ) :=
  [(0.0, 9.0), (9.1, 35.4), (35.5, 55.4), (55.5, 125.4), (125.5, 225.4), (225.5, 500.0)]

/-- AQI breakpoints from `calculate_aqi` (src/libs/aqi/src/lib.rs lines 62-69). -/
def AQI_BREAKPOINTS : List (ℕ × ℕ) :=
  [(0, 50), (51, 100), (101, 150), (151, 200), (201, 300), (301, 500)]

/-- Body of the matched-band branch of `calculate_aqi`: the EPA linear
interpolation formula, rounded with `roundf`, then cast to u16 (saturating). -/
def interp (pm_low pm_high : ℚ) (aqi_low aqi_high : ℕ) (pm25 : ℚ) : ℕ :=
  min (roundf ((((aqi_high - aqi_low : ℕ) : ℚ) / (pm_high - pm_low)) * (pm25 - pm_low)
    + (aqi_low : ℚ))).toNat 65535

/-- The breakpoint-scanning loop of `calculate_aqi`: the first band whose
(inclusive) concentration range contains `pm25` is interpolated; if no band
matches, the loop falls through to the `500` default. -/
def band_scan : List ((ℚ × ℚ) × (ℕ × ℕ)) → ℚ → ℕ
  | [], _ => 500
  | ((pm_low, pm_high), (aqi_low, aqi_high)) :: rest, pm25 =>
    if pm_low ≤ pm25 ∧ pm25 ≤ pm_high then
      interp pm_low pm_high aqi_low aqi_high pm25
    else band_scan rest pm25

/-- `calculate_aqi` from src/libs/aqi/src/lib.rs lines 47-87 (the copy in
src/src/main.rs lines 316-356 is identical). -/
def calculate_aqi (pm25 : ℚ) : ℕ :=
  band_scan (PM25_BREAKPOINTS.zip AQI_BREAKPOINTS) pm25

/-- `get_aqi_color` from src/libs/aqi/src/lib.rs lines 113-122, the u16 range
match written as an if-chain (the input of the source is a u16, i.e. a
natural number below 65536; the match arms read identically on `ℕ`). -/
def get_aqi_color (aqi : ℕ) : Color :=
  if aqi ≤ 50 then .Green
  else if aqi ≤ 100 then .Yellow
  else if aqi ≤ 150 then .Orange
  else if aqi ≤ 200 then .Red
  else if aqi ≤ 300 then .Purple
  else .DarkPurple

/-- EXPECTED_HEADER constant from src/src/pmsa003i.rs line 11. -/
def EXPECTED_HEADER : List ℕ := [0x42, 0x4D]

/-- Pmsa003iData struct from src/src/pmsa003i.rs lines 18-37.  The Rust field
names carry a leading underscore for the unused fields; the Lean fields keep
them.  `deriving Inhabited` makes `default` the all-zero record, matching the
derived Rust `Default`. -/
structure Pmsa003iData where
  _pm1_0_standard : ℕ
  _pm2_5_standard : ℕ
  _pm10_standard : ℕ
  _pm1_0_env : ℕ
  pm2_5_env : ℕ
  _pm10_env : ℕ
  _particles_0_3 : ℕ
  _particles_0_5 : ℕ
  _particles_1_0 : ℕ
  _particles_2_5 : ℕ
  _particles_5_0 : ℕ
  _particles_10 : ℕ
deriving DecidableEq, Repr, Inhabited

/-- Big-endian 16-bit read, `u16::from_be_bytes([hi, lo])`. -/
def from_be_bytes (hi lo : ℕ) : ℕ := 256 * hi + lo

/-- `parse_data` from src/src/pmsa003i.rs lines 60-79.  Buffer indexing is
modelled with `List.getD`; every index accessed is below 32, hence in bounds
whenever the length guard has passed. -/
def parse_data (buffer : List ℕ) : Except String Pmsa003iData :=
  if buffer.length < 32 then
    .error "Buffer too short, expected at least 32 bytes"
  else
    .ok
      { _pm1_0_standard := from_be_bytes (buffer.getD 4 0) (buffer.getD 5 0)
        _pm2_5_standard := from_be_bytes (buffer.getD 6 0) (buffer.getD 7 0)
        _pm10_standard := from_be_bytes (buffer.getD 8 0) (buffer.getD 9 0)
        _pm1_0_env := from_be_bytes (buffer.getD 10 0) (buffer.getD 11 0)
        pm2_5_env := from_be_bytes (buffer.getD 12 0) (buffer.getD 13 0)
        _pm10_env := from_be_bytes (buffer.getD 14 0) (buffer.getD 15 0)
        _particles_0_3 := from_be_bytes (buffer.getD 16 0) (buffer.getD 17 0)
        _particles_0_5 := from_be_bytes (buffer.getD 18 0) (buffer.getD 19 0)
        _particles_1_0 := from_be_bytes (buffer.getD 20 0) (buffer.getD 21 0)
        _particles_2_5 := from_be_bytes (buffer.getD 22 0) (buffer.getD 23 0)
        _particles_5_0 := from_be_bytes (buffer.getD 24 0) (buffer.getD 25 0)
        _particles_10 := from_be_bytes (buffer.getD 26 0) (buffer.getD 27 0) }

/-- `validate_header` from src/src/pmsa003i.rs lines 161-178.  The source
compares the whole input slice against the two-byte EXPECTED_HEADER array
(slice-to-array equality, which is false whenever the lengths differ).  On
mismatch it prints a diagnostic that indexes `header_bytes[1]`; on a one-byte
input that index is out of bounds and the program panics, modelled by `none`. -/
def validate_header (header_bytes : List ℕ) : Option (Except String Unit) :=
  if header_bytes.isEmpty then some (.error "Buffer is empty")
  else if header_bytes = EXPECTED_HEADER then some (.ok ())
  else if 2 ≤ header_bytes.length then some (.error "Header validation failed")
  else none

/-- `validate_checksum` from src/src/pmsa003i.rs lines 258-275.  The running
u16 `wrapping_add` over the first 30 bytes (`calculated_sum` in the source) is
the fold with `% 65536`; `received_sum` is the big-endian read of bytes 30
and 31. -/
def validate_checksum (checksum_bytes : List ℕ) : Except String Unit :=
  if checksum_bytes.length < 32 then
    .error "Could not validate checksum, incorrect number of bytes received"
  else if (checksum_bytes.take 30).foldl (fun s b => (s + b) % 65536) 0 =
      from_be_bytes (checksum_bytes.getD 30 0) (checksum_bytes.getD 31 0) then
    .ok ()
  else
    .error "Checksum validation failed"

/-- State retained by the main loop across acquisition cycles
(src/src/main.rs lines 246-290): the last computed AQI (initially 0) and the
LED display, `none` when all LEDs are off and `some c` after `set_color c`. -/
structure CycleState where
  aqi : ℕ
  led : Option Color
deriving DecidableEq, Repr

/-- Result of `fetch_data`: either the 32 bytes read over I2C or a bus error. -/
inductive ReadResult where
  | ok (sensor_data : List ℕ)
  | err
deriving DecidableEq, Repr

/-- Observable outcome of one acquisition cycle. -/
inductive CycleOutcome where
  | readError
  | headerError
  | checksumError
  | panicked
  | completed (c : Color)
deriving DecidableEq, Repr

/-- One button-high iteration of the main loop (src/src/main.rs lines
250-285), given the result of `fetch_data`.  On a bus read error the match arm
only prints, and control falls through to the LED update, which re-drives the
LED with the color of the retained `aqi`; on header or checksum validation
failure the `continue` skips the rest of the iteration, leaving the state
untouched; on success the frame is parsed (`unwrap_or_else` substituting the
all-zero default on a parse error), the AQI recomputed and the LED updated.
The `panicked` outcome (see `validate_header`) cannot occur for the 32-byte
buffers `fetch_data` produces. -/
def cycle_step (s : CycleState) (r : ReadResult) : CycleState × CycleOutcome :=
  match r with
  | .err => ({ aqi := s.aqi, led := some (get_aqi_color s.aqi) }, .readError)
  | .ok sensor_data =>
    match validate_header (sensor_data.take 2) with
    | none => (s, .panicked)
    | some (.error _) => (s, .headerError)
    | some (.ok _) =>
      match validate_checksum sensor_data with
      | .error _ => (s, .checksumError)
      | .ok _ =>
        let data := match parse_data sensor_data with
          | .ok d => d
          | .error _ => default
        let aqi := calculate_aqi (data.pm2_5_env : ℚ)
        ({ aqi := aqi, led := some (get_aqi_color aqi) }, .completed (get_aqi_color aqi))

/-! Helper lemmas (shared between claims). -/

/-- Successful `parse_data` on a buffer of at least 32 bytes, field by field. -/
lemma parse_data_ok (buffer : List ℕ) (h : 32 ≤ buffer.length) :
    parse_data buffer = .ok
      { _pm1_0_standard := from_be_bytes (buffer.getD 4 0) (buffer.getD 5 0)
        _pm2_5_standard := from_be_bytes (buffer.getD 6 0) (buffer.getD 7 0)
        _pm10_standard := from_be_bytes (buffer.getD 8 0) (buffer.getD 9 0)
        _pm1_0_env := from_be_bytes (buffer.getD 10 0) (buffer.getD 11 0)
        pm2_5_env := from_be_bytes (buffer.getD 12 0) (buffer.getD 13 0)
        _pm10_env := from_be_bytes (buffer.getD 14 0) (buffer.getD 15 0)
        _particles_0_3 := from_be_bytes (buffer.getD 16 0) (buffer.getD 17 0)
        _particles_0_5 := from_be_bytes (buffer.getD 18 0) (buffer.getD 19 0)
        _particles_1_0 := from_be_bytes (buffer.getD 20 0) (buffer.getD 21 0)
        _particles_2_5 := from_be_bytes (buffer.getD 22 0) (buffer.getD 23 0)
        _particles_5_0 := from_be_bytes (buffer.getD 24 0) (buffer.getD 25 0)
        _particles_10 := from_be_bytes (buffer.getD 26 0) (buffer.getD 27 0) } := by
  unfold parse_data
  rw [if_neg (by omega)]

/-- Failing `parse_data` on a buffer shorter than 32 bytes. -/
lemma parse_data_short (buffer : List ℕ) (h : buffer.length < 32) :
    parse_data buffer = .error "Buffer too short, expected at least 32 bytes" := by
  unfold parse_data
  rw [if_pos h]

/-!  Claim theorems. -/

/-- C1: the AQI calculator returns exactly the literal values on these concrete
inputs: 0.0 ↦ 0, 4.5 ↦ 25, 35.5 ↦ 101, 125.4 ↦ 200, 225.5 ↦ 301, 500.0 ↦ 500,
and 600.0 ↦ 500 (saturation above the top band). -/
theorem c1_literal_vectors :
    calculate_aqi 0.0 = 0 ∧ calculate_aqi 4.5 = 25 ∧ calculate_aqi 35.5 = 101 ∧
    calculate_aqi 125.4 = 200 ∧ calculate_aqi 225.5 = 301 ∧ calculate_aqi 500.0 = 500 ∧
    calculate_aqi 600.0 = 500 := by
  refine ⟨?_, ?_, ?_, ?_, ?_, ?_, ?_⟩ <;>
    (norm_num [calculate_aqi, PM25_BREAKPOINTS, AQI_BREAKPOINTS, List.zip_cons_cons,
      List.zip_nil_right, band_scan, interp, roundf]) <;>
    decide

/-- C5: `parse_data` fails with the buffer-too-short error on every buffer
shorter than 32 bytes, and on every buffer of at least 32 bytes it succeeds,
returning the twelve 16-bit fields read big-endian at offsets 4,6,…,26, with
the environmental PM2.5 field from bytes 12 and 13; every field value is taken
as transmitted, with no range validation. -/
theorem c5_parse_data_fields (buffer : List ℕ) :
    (buffer.length < 32 →
      parse_data buffer = .error "Buffer too short, expected at least 32 bytes") ∧
    (32 ≤ buffer.length →
      parse_data buffer = .ok
        { _pm1_0_standard := from_be_bytes (buffer.getD 4 0) (buffer.getD 5 0)
          _pm2_5_standard := from_be_bytes (buffer.getD 6 0) (buffer.getD 7 0)
          _pm10_standard := from_be_bytes (buffer.getD 8 0) (buffer.getD 9 0)
          _pm1_0_env := from_be_bytes (buffer.getD 10 0) (buffer.getD 11 0)
          pm2_5_env := from_be_bytes (buffer.getD 12 0) (buffer.getD 13 0)
          _pm10_env := from_be_bytes (buffer.getD 14 0) (buffer.getD 15 0)
          _particles_0_3 := from_be_bytes (buffer.getD 16 0) (buffer.getD 17 0)
          _particles_0_5 := from_be_bytes (buffer.getD 18 0) (buffer.getD 19 0)
          _particles_1_0 := from_be_bytes (buffer.getD 20 0) (buffer.getD 21 0)
          _particles_2_5 := from_be_bytes (buffer.getD 22 0) (buffer.getD 23 0)
          _particles_5_0 := from_be_bytes (buffer.getD 24 0) (buffer.getD 25 0)
          _particles_10 := from_be_bytes (buffer.getD 26 0) (buffer.getD 27 0) }) :=
  ⟨parse_data_short buffer, parse_data_ok buffer⟩

/-- C5 witness: the characterization applied to the all-fives 32-byte buffer. -/
theorem c5_witness : parse_data (List.replicate 32 5) =
    .ok ⟨1285, 1285, 1285, 1285, 1285, 1285, 1285, 1285, 1285, 1285, 1285, 1285⟩ :=
  (c5_parse_data_fields (List.replicate 32 5)).2 (by decide)

/-- C6: the severity mapper `get_aqi_color` is a total step function with the
six inclusive contiguous ranges [0,50] Green, [51,100] Yellow, [101,150]
Orange, [151,200] Red, [201,300] Purple, and everything from 301 up
DarkPurple. -/
theorem c6_severity_step_function (aqi : ℕ) :
    (aqi ≤ 50 → get_aqi_color aqi = .Green) ∧
    (51 ≤ aqi → aqi ≤ 100 → get_aqi_color aqi = .Yellow) ∧
    (101 ≤ aqi → aqi ≤ 150 → get_aqi_color aqi = .Orange) ∧
    (151 ≤ aqi → aqi ≤ 200 → get_aqi_color aqi = .Red) ∧
    (201 ≤ aqi → aqi ≤ 300 → get_aqi_color aqi = .Purple) ∧
    (301 ≤ aqi → get_aqi_color aqi = .DarkPurple) := by
  unfold get_aqi_color
  refine ⟨?_, ?_, ?_, ?_, ?_, ?_⟩ <;> intros <;> split_ifs <;> first | rfl | omega

/-- C6 witness: the step function evaluated well inside and beyond the bands,
9999 included (unbounded above). -/
theorem c6_witness :
    get_aqi_color 50 = Color.Green ∧ get_aqi_color 51 = Color.Yellow ∧
    get_aqi_color 300 = Color.Purple ∧ get_aqi_color 301 = Color.DarkPurple ∧
    get_aqi_color 9999 = Color.DarkPurple :=
  ⟨(c6_severity_step_function 50).1 (by decide),
   (c6_severity_step_function 51).2.1 (by decide) (by decide),
   (c6_severity_step_function 300).2.2.2.2.1 (by decide) (by decide),
   (c6_severity_step_function 301).2.2.2.2.2 (by decide),
   (c6_severity_step_function 9999).2.2.2.2.2 (by decide)⟩

/-- C10: the decoded reading depends only on bytes 4..27: any two buffers of
length at least 32 agreeing on those offsets parse successfully to the same
record, regardless of the header bytes 0..3 and the reserved/checksum bytes
28..31. -/
theorem c10_decode_noninterference (b1 b2 : List ℕ)
    (h1 : 32 ≤ b1.length) (h2 : 32 ≤ b2.length)
    (hagree : ∀ i, 4 ≤ i → i < 28 → b1.getD i 0 = b2.getD i 0) :
    ∃ d : Pmsa003iData, parse_data b1 = .ok d ∧ parse_data b2 = .ok d := by
  refine ⟨_, parse_data_ok b1 h1, ?_⟩
  rw [parse_data_ok b2 h2]
  simp only [Except.ok.injEq, Pmsa003iData.mk.injEq, from_be_bytes]
  refine ⟨?_, ?_, ?_, ?_, ?_, ?_, ?_, ?_, ?_, ?_, ?_, ?_⟩ <;>
    rw [hagree _ (by omega) (by omega), hagree _ (by omega) (by omega)]

/-- C10 witness: two concrete buffers differing only in header and checksum
bytes decode to the same record. -/
theorem c10_witness :
    ∃ d : Pmsa003iData,
      parse_data (List.replicate 32 5) = .ok d ∧
      parse_data (0 :: 1 :: 2 :: 3 :: List.replicate 24 5 ++ [9, 9, 9, 9]) = .ok d :=
  c10_decode_noninterference _ _ (by decide) (by decide) (by decide)

/-- The running wrapping u16 sum is the plain sum modulo 2^16. -/
lemma checksum_foldl (l : List ℕ) : ∀ s, s < 65536 →
    l.foldl (fun a b => (a + b) % 65536) s = (s + l.sum) % 65536 := by
  induction l with
  | nil => intro s hs; simp [Nat.mod_eq_of_lt hs]
  | cons a t ih =>
    intro s hs
    simp only [List.foldl_cons, List.sum_cons]
    rw [ih _ (Nat.mod_lt _ (by norm_num)), Nat.mod_add_mod, ← Nat.add_assoc]

/-- On a long-enough buffer, `validate_checksum` reduces to comparing the
modular sum of the first 30 bytes with the stored big-endian value. -/
lemma validate_checksum_eq (b : List ℕ) (h : 32 ≤ b.length) :
    validate_checksum b =
      if (b.take 30).sum % 65536 = from_be_bytes (b.getD 30 0) (b.getD 31 0)
      then .ok () else .error "Checksum validation failed" := by
  unfold validate_checksum
  rw [if_neg (by omega), checksum_foldl _ 0 (by norm_num), Nat.zero_add]

/-- C3 counterexample: the claim says any length other than 32 fails with the
length error, but `validate_checksum` only checks `len < 32`: the 33-byte
all-zero buffer validates successfully. -/
theorem c3_counterexample : validate_checksum (List.replicate 33 0) = .ok () := rfl

/-- C3 (amended): `validate_checksum` requires AT LEAST 32 bytes and fails
with the length error for any shorter buffer (in particular a 31-byte one,
whose result is the length error, not a checksum comparison); on 32 or more
bytes it succeeds iff the wrapping mod-2^16 sum of bytes 0..29 equals the
big-endian 16-bit value at bytes 30..31, failing with the checksum-mismatch
error otherwise. -/
theorem c3_checksum_length_amended (b : List ℕ) :
    (b.length < 32 →
      validate_checksum b =
        .error "Could not validate checksum, incorrect number of bytes received") ∧
    (32 ≤ b.length →
      (validate_checksum b = .ok () ↔
        (b.take 30).sum % 65536 = from_be_bytes (b.getD 30 0) (b.getD 31 0)) ∧
      ((b.take 30).sum % 65536 ≠ from_be_bytes (b.getD 30 0) (b.getD 31 0) →
        validate_checksum b = .error "Checksum validation failed")) := by
  constructor
  · intro h
    unfold validate_checksum
    rw [if_pos h]
  · intro h
    rw [validate_checksum_eq b h]
    constructor
    · constructor
      · intro hok
        by_contra hne
        rw [if_neg hne] at hok
        exact Except.noConfusion hok
      · intro he
        rw [if_pos he]
    · intro hne
      rw [if_neg hne]

/-- C3 witness: a 31-byte buffer fails with the length error, and a 32-byte
buffer with a wrong stored checksum fails with the mismatch error. -/
theorem c3_witness :
    validate_checksum (List.replicate 31 0) =
      .error "Could not validate checksum, incorrect number of bytes received" ∧
    validate_checksum (List.replicate 30 1 ++ [0, 0]) =
      .error "Checksum validation failed" :=
  ⟨(c3_checksum_length_amended (List.replicate 31 0)).1 (by decide),
   ((c3_checksum_length_amended (List.replicate 30 1 ++ [0, 0])).2 (by decide)).2 (by decide)⟩

/-- C4 counterexample: the claim says that with at least 2 bytes present the
header check succeeds exactly when the first two bytes are the magic pair, and
that shorter-than-2 inputs fail with the empty-buffer error.  In the code the
whole slice is compared against the 2-byte array, so a 32-byte buffer that
starts with the magic pair still fails; and a 1-byte buffer is not caught by
the `is_empty` guard but panics on the out-of-bounds index in the diagnostic
print rather than failing with the empty-buffer error. -/
theorem c4_counterexample :
    validate_header (EXPECTED_HEADER ++ List.replicate 30 0) =
      some (.error "Header validation failed") ∧
    validate_header [0x42] = none :=
  ⟨rfl, rfl⟩

/-- C4 (amended): `validate_header` fails with the empty-buffer error exactly
on the empty buffer; a 1-byte buffer panics (out-of-bounds index in the
diagnostic print) instead of returning; given at least 2 bytes it succeeds
exactly when the whole buffer equals the magic pair [0x42, 0x4D] — so only
length-2 buffers can pass — and fails with the header error on any other
content; in particular every 32-byte buffer fails header validation regardless
of its first two bytes and of checksum correctness.  (The caller only ever
passes the 2-byte slice frame[0..2], for which the original claim's reading is
accurate.) -/
theorem c4_header_amended (b : List ℕ) :
    (b = [] → validate_header b = some (.error "Buffer is empty")) ∧
    (b.length = 1 → validate_header b = none) ∧
    (2 ≤ b.length →
      (validate_header b = some (.ok ()) ↔ b = EXPECTED_HEADER) ∧
      (b ≠ EXPECTED_HEADER → validate_header b = some (.error "Header validation failed"))) ∧
    (32 ≤ b.length → validate_header b = some (.error "Header validation failed")) := by
  refine ⟨?_, ?_, ?_, ?_⟩
  · rintro rfl
    rfl
  · intro h1
    unfold validate_header
    rw [if_neg (by simp [List.isEmpty_iff]; intro he; rw [he] at h1; simp at h1),
      if_neg (by intro he; rw [he] at h1; simp [EXPECTED_HEADER] at h1),
      if_neg (by omega)]
  · intro h2
    constructor
    · constructor
      · intro hok
        by_contra hne
        unfold validate_header at hok
        rw [if_neg (by simp [List.isEmpty_iff]; intro he; rw [he] at h2; simp at h2),
          if_neg hne, if_pos h2] at hok
        simp at hok
      · rintro rfl
        rfl
    · intro hne
      unfold validate_header
      rw [if_neg (by simp [List.isEmpty_iff]; intro he; rw [he] at h2; simp at h2),
        if_neg hne, if_pos h2]
  · intro h32
    unfold validate_header
    rw [if_neg (by simp [List.isEmpty_iff]; intro he; rw [he] at h32; simp at h32),
      if_neg (by intro he; rw [he] at h32; simp [EXPECTED_HEADER] at h32),
      if_pos (by omega)]

/-- C4 witness: the empty buffer yields the empty error, the exact magic pair
passes, and a 2-byte non-magic pair fails with the header error. -/
theorem c4_witness :
    validate_header [] = some (.error "Buffer is empty") ∧
    validate_header [0x42, 0x4D] = some (.ok ()) ∧
    validate_header [0x13, 0x4D] = some (.error "Header validation failed") :=
  ⟨(c4_header_amended []).1 rfl,
   ((c4_header_amended [0x42, 0x4D]).2.2.1 (by decide)).1.mpr rfl,
   ((c4_header_amended [0x13, 0x4D]).2.2.1 (by decide)).2 (by decide)⟩

/-- Setting an element commutes with a longer prefix-take. -/
lemma take_set_comm (l : List ℕ) (v : ℕ) :
    ∀ i m, i < m → (l.set i v).take m = (l.take m).set i v := by
  induction l with
  | nil => intros; simp
  | cons a t ih =>
    intro i m him
    cases i with
    | zero =>
      cases m with
      | zero => omega
      | succ m => simp
    | succ i =>
      cases m with
      | zero => omega
      | succ m => simp [ih i m (by omega)]

/-- Replacing one in-range element changes the sum by the difference,
stated addition-only to stay in `ℕ`. -/
lemma sum_set_getD (l : List ℕ) (v : ℕ) :
    ∀ i, i < l.length → (l.set i v).sum + l.getD i 0 = l.sum + v := by
  induction l with
  | nil => simp
  | cons a t ih =>
    intro i hi
    cases i with
    | zero =>
      simp only [List.set_cons_zero, List.sum_cons, List.getD_cons_zero]
      omega
    | succ i =>
      simp only [List.set_cons_succ, List.sum_cons, List.getD_cons_succ]
      have := ih i (by simpa using hi)
      omega

/-- Prefix-take preserves in-range `getD`. -/
lemma getD_take (l : List ℕ) (i m : ℕ) (h : i < m) (h2 : i < l.length) :
    (l.take m).getD i 0 = l.getD i 0 := by
  rw [List.getD_eq_getElem _ 0 (by simp [List.length_take]; omega),
    List.getD_eq_getElem _ 0 h2]
  exact List.getElem_take l

/-- C2: checksum round-trip.  First part: appending the wrapping 16-bit sum of
a 30-byte payload, written big-endian, yields a 32-byte buffer that
`validate_checksum` accepts.  Second part: for any correctly checksummed
32-byte buffer of bytes, flipping any single bit (bit k of byte i, i < 30)
within the payload while leaving the checksum bytes unchanged makes
`validate_checksum` reject the buffer. -/
theorem c2_checksum_roundtrip :
    (∀ p : List ℕ, p.length = 30 →
      (p ++ [p.sum % 65536 / 256, p.sum % 65536 % 256]).length = 32 ∧
      validate_checksum (p ++ [p.sum % 65536 / 256, p.sum % 65536 % 256]) = .ok ()) ∧
    (∀ buf : List ℕ, buf.length = 32 → (∀ x ∈ buf, x < 256) →
      validate_checksum buf = .ok () →
      ∀ i k, i < 30 → k < 8 →
        validate_checksum (buf.set i (buf.getD i 0 ^^^ 2 ^ k)) =
          .error "Checksum validation failed") := by
  constructor
  · intro p hp
    have hlen : (p ++ [p.sum % 65536 / 256, p.sum % 65536 % 256]).length = 32 := by
      simp [hp]
    refine ⟨hlen, ?_⟩
    rw [validate_checksum_eq _ (by omega)]
    have htake : (p ++ [p.sum % 65536 / 256, p.sum % 65536 % 256]).take 30 = p := by
      conv_lhs => rw [← hp]
      exact List.take_left p _
    have hg30 : (p ++ [p.sum % 65536 / 256, p.sum % 65536 % 256]).getD 30 0 =
        p.sum % 65536 / 256 := by
      rw [List.getD_append_right _ _ _ _ (by omega), hp]
      simp
    have hg31 : (p ++ [p.sum % 65536 / 256, p.sum % 65536 % 256]).getD 31 0 =
        p.sum % 65536 % 256 := by
      rw [List.getD_append_right _ _ _ _ (by omega), hp]
      simp
    rw [htake, hg30, hg31, if_pos ?_]
    unfold from_be_bytes
    rw [Nat.div_add_mod (p.sum % 65536) 256]
  · intro buf hlen hbytes hok i k hi hk
    have hiblen : i < buf.length := by omega
    obtain ⟨old, hold⟩ : ∃ o, buf.getD i 0 = o := ⟨_, rfl⟩
    rw [hold]
    have holdlt : old < 256 := by
      rw [← hold, List.getD_eq_getElem buf 0 hiblen]
      exact hbytes _ (List.getElem_mem hiblen)
    have hnwlt : old ^^^ 2 ^ k < 256 := by
      have h1 : old < 2 ^ 8 := by omega
      have h2 : (2 : ℕ) ^ k < 2 ^ 8 := Nat.pow_lt_pow_right (by norm_num) hk
      have h3 := Nat.xor_lt_two_pow h1 h2
      omega
    have hne : old ^^^ 2 ^ k ≠ old := by
      intro he
      have hb := congrArg (fun m => m.testBit k) he
      simp only [Nat.testBit_xor, Nat.testBit_two_pow_self, Bool.xor_true] at hb
      cases hx : old.testBit k <;> rw [hx] at hb <;> simp at hb
    have hok' : (buf.take 30).sum % 65536 =
        from_be_bytes (buf.getD 30 0) (buf.getD 31 0) := by
      rw [validate_checksum_eq buf (by omega)] at hok
      by_contra hne2
      rw [if_neg hne2] at hok
      exact Except.noConfusion hok
    rw [validate_checksum_eq _ (by rw [List.length_set]; omega),
      take_set_comm buf _ i 30 hi]
    have hg30 : (buf.set i (old ^^^ 2 ^ k)).getD 30 0 = buf.getD 30 0 := by
      rw [List.getD_eq_getElem?_getD, List.getElem?_set_ne (by omega),
        ← List.getD_eq_getElem?_getD]
    have hg31 : (buf.set i (old ^^^ 2 ^ k)).getD 31 0 = buf.getD 31 0 := by
      rw [List.getD_eq_getElem?_getD, List.getElem?_set_ne (by omega),
        ← List.getD_eq_getElem?_getD]
    rw [hg30, hg31, if_neg ?_]
    intro hbad
    have hgt : (buf.take 30).getD i 0 = old := by
      rw [← hold]
      exact getD_take buf i 30 hi hiblen
    have hsumrel := sum_set_getD (buf.take 30) (old ^^^ 2 ^ k) i
      (by rw [List.length_take]; omega)
    rw [hgt] at hsumrel
    have hmeq : ((buf.take 30).set i (old ^^^ 2 ^ k)).sum ≡
        (buf.take 30).sum [MOD 65536] := by
      unfold Nat.ModEq
      rw [hbad, hok']
    have hmeq2 := hmeq.add_right old
    rw [hsumrel] at hmeq2
    have hcan : (old ^^^ 2 ^ k) ≡ old [MOD 65536] :=
      Nat.ModEq.add_left_cancel (Nat.ModEq.refl _) hmeq2
    have heq : old ^^^ 2 ^ k = old := by
      have h1 := hcan
      unfold Nat.ModEq at h1
      rw [Nat.mod_eq_of_lt (by omega), Nat.mod_eq_of_lt (by omega)] at h1
      exact h1
    exact hne heq

/-- C2 witness: the concrete payload of thirty 1-bytes (as in the repository's
unit test) round-trips, and flipping bit 0 of byte 0 of the resulting frame is
rejected. -/
theorem c2_witness :
    validate_checksum (List.replicate 30 1 ++
      [(List.replicate 30 1).sum % 65536 / 256, (List.replicate 30 1).sum % 65536 % 256]) =
      .ok () ∧
    validate_checksum ((List.replicate 30 1 ++ [0, 30]).set 0 (1 ^^^ 2 ^ 0)) =
      .error "Checksum validation failed" :=
  ⟨(c2_checksum_roundtrip.1 (List.replicate 30 1) (by decide)).2,
   c2_checksum_roundtrip.2 (List.replicate 30 1 ++ [0, 30]) (by decide) (by decide)
     (by rw [validate_checksum_eq _ (by decide), if_pos (by decide)]) 0 0
     (by decide) (by decide)⟩

/-- Round-half-away-from-zero is monotone. -/
lemma roundf_mono {a b : ℚ} (h : a ≤ b) : roundf a ≤ roundf b := by
  unfold roundf
  split_ifs with h1 h2 h2
  · exact Int.floor_le_floor (by linarith)
  · exact absurd (le_trans h1 h) h2
  · have hc : (⌈a - 1/2⌉ : ℤ) ≤ 0 := Int.ceil_le.mpr (by push_cast; linarith)
    have hf : (0 : ℤ) ≤ ⌊b + 1/2⌋ := Int.le_floor.mpr (by push_cast; linarith)
    omega
  · exact Int.ceil_le_ceil (by linarith)

/-- The interpolation body is monotone in the concentration whenever the
band's concentration range is nondegenerate. -/
lemma interp_mono (pm_low pm_high : ℚ) (aqi_low aqi_high : ℕ) (hlt : pm_low < pm_high)
    {x y : ℚ} (hxy : x ≤ y) :
    interp pm_low pm_high aqi_low aqi_high x ≤ interp pm_low pm_high aqi_low aqi_high y := by
  unfold interp
  refine min_le_min (Int.toNat_le_toNat (roundf_mono ?_)) le_rfl
  have hs : 0 ≤ ((aqi_high - aqi_low : ℕ) : ℚ) / (pm_high - pm_low) :=
    div_nonneg (Nat.cast_nonneg _) (by linarith)
  have := mul_le_mul_of_nonneg_left (sub_le_sub_right hxy pm_low) hs
  linarith

/-- Inside the first band the scan selects the first interpolation. -/
lemma calculate_aqi_band0 (x : ℚ) (h0 : 0.0 ≤ x) (h1 : x ≤ 9.0) :
    calculate_aqi x = interp 0.0 9.0 0 50 x := by
  unfold calculate_aqi PM25_BREAKPOINTS AQI_BREAKPOINTS
  simp only [List.zip_cons_cons, List.zip_nil_right, band_scan]
  rw [if_pos ⟨h0, h1⟩]

/-- Inside the second band the scan selects the second interpolation. -/
lemma calculate_aqi_band1 (x : ℚ) (h0 : 9.1 ≤ x) (h1 : x ≤ 35.4) :
    calculate_aqi x = interp 9.1 35.4 51 100 x := by
  unfold calculate_aqi PM25_BREAKPOINTS AQI_BREAKPOINTS
  simp only [List.zip_cons_cons, List.zip_nil_right, band_scan]
  rw [if_neg (by rintro ⟨-, hc⟩; norm_num at hc h0; linarith), if_pos ⟨h0, h1⟩]

/-- Inside the third band the scan selects the third interpolation. -/
lemma calculate_aqi_band2 (x : ℚ) (h0 : 35.5 ≤ x) (h1 : x ≤ 55.4) :
    calculate_aqi x = interp 35.5 55.4 101 150 x := by
  unfold calculate_aqi PM25_BREAKPOINTS AQI_BREAKPOINTS
  simp only [List.zip_cons_cons, List.zip_nil_right, band_scan]
  rw [if_neg (by rintro ⟨-, hc⟩; norm_num at hc h0; linarith),
    if_neg (by rintro ⟨-, hc⟩; norm_num at hc h0; linarith), if_pos ⟨h0, h1⟩]

/-- Inside the fourth band the scan selects the fourth interpolation. -/
lemma calculate_aqi_band3 (x : ℚ) (h0 : 55.5 ≤ x) (h1 : x ≤ 125.4) :
    calculate_aqi x = interp 55.5 125.4 151 200 x := by
  unfold calculate_aqi PM25_BREAKPOINTS AQI_BREAKPOINTS
  simp only [List.zip_cons_cons, List.zip_nil_right, band_scan]
  rw [if_neg (by rintro ⟨-, hc⟩; norm_num at hc h0; linarith),
    if_neg (by rintro ⟨-, hc⟩; norm_num at hc h0; linarith),
    if_neg (by rintro ⟨-, hc⟩; norm_num at hc h0; linarith), if_pos ⟨h0, h1⟩]

/-- Inside the fifth band the scan selects the fifth interpolation. -/
lemma calculate_aqi_band4 (x : ℚ) (h0 : 125.5 ≤ x) (h1 : x ≤ 225.4) :
    calculate_aqi x = interp 125.5 225.4 201 300 x := by
  unfold calculate_aqi PM25_BREAKPOINTS AQI_BREAKPOINTS
  simp only [List.zip_cons_cons, List.zip_nil_right, band_scan]
  rw [if_neg (by rintro ⟨-, hc⟩; norm_num at hc h0; linarith),
    if_neg (by rintro ⟨-, hc⟩; norm_num at hc h0; linarith),
    if_neg (by rintro ⟨-, hc⟩; norm_num at hc h0; linarith),
    if_neg (by rintro ⟨-, hc⟩; norm_num at hc h0; linarith), if_pos ⟨h0, h1⟩]

/-- Inside the sixth band the scan selects the sixth interpolation. -/
lemma calculate_aqi_band5 (x : ℚ) (h0 : 225.5 ≤ x) (h1 : x ≤ 500.0) :
    calculate_aqi x = interp 225.5 500.0 301 500 x := by
  unfold calculate_aqi PM25_BREAKPOINTS AQI_BREAKPOINTS
  simp only [List.zip_cons_cons, List.zip_nil_right, band_scan]
  rw [if_neg (by rintro ⟨-, hc⟩; norm_num at hc h0; linarith),
    if_neg (by rintro ⟨-, hc⟩; norm_num at hc h0; linarith),
    if_neg (by rintro ⟨-, hc⟩; norm_num at hc h0; linarith),
    if_neg (by rintro ⟨-, hc⟩; norm_num at hc h0; linarith),
    if_neg (by rintro ⟨-, hc⟩; norm_num at hc h0; linarith), if_pos ⟨h0, h1⟩]

/-- C7: within each of the six breakpoint bands `calculate_aqi` is
monotonically non-decreasing, and at each boundary between adjacent bands the
outputs at the upper edge of one band and the lower edge of the next differ by
exactly 1. -/
theorem c7_monotone_within_bands :
    (∀ pm_low pm_high aqi_low aqi_high,
      ((pm_low, pm_high), (aqi_low, aqi_high)) ∈ PM25_BREAKPOINTS.zip AQI_BREAKPOINTS →
      ∀ x y : ℚ, pm_low ≤ x → x ≤ pm_high → pm_low ≤ y → y ≤ pm_high → x ≤ y →
        calculate_aqi x ≤ calculate_aqi y) ∧
    (calculate_aqi 9.0 + 1 = calculate_aqi 9.1 ∧
     calculate_aqi 35.4 + 1 = calculate_aqi 35.5 ∧
     calculate_aqi 55.4 + 1 = calculate_aqi 55.5 ∧
     calculate_aqi 125.4 + 1 = calculate_aqi 125.5 ∧
     calculate_aqi 225.4 + 1 = calculate_aqi 225.5) := by
  constructor
  · intro pm_low pm_high aqi_low aqi_high hmem x y hx0 hx1 hy0 hy1 hxy
    simp only [PM25_BREAKPOINTS, AQI_BREAKPOINTS, List.zip_cons_cons, List.zip_nil_right,
      List.mem_cons, List.not_mem_nil, or_false, Prod.mk.injEq] at hmem
    rcases hmem with ⟨⟨rfl, rfl⟩, rfl, rfl⟩ | ⟨⟨rfl, rfl⟩, rfl, rfl⟩ | ⟨⟨rfl, rfl⟩, rfl, rfl⟩ |
      ⟨⟨rfl, rfl⟩, rfl, rfl⟩ | ⟨⟨rfl, rfl⟩, rfl, rfl⟩ | ⟨⟨rfl, rfl⟩, rfl, rfl⟩
    · rw [calculate_aqi_band0 x hx0 hx1, calculate_aqi_band0 y hy0 hy1]
      exact interp_mono _ _ _ _ (by norm_num) hxy
    · rw [calculate_aqi_band1 x hx0 hx1, calculate_aqi_band1 y hy0 hy1]
      exact interp_mono _ _ _ _ (by norm_num) hxy
    · rw [calculate_aqi_band2 x hx0 hx1, calculate_aqi_band2 y hy0 hy1]
      exact interp_mono _ _ _ _ (by norm_num) hxy
    · rw [calculate_aqi_band3 x hx0 hx1, calculate_aqi_band3 y hy0 hy1]
      exact interp_mono _ _ _ _ (by norm_num) hxy
    · rw [calculate_aqi_band4 x hx0 hx1, calculate_aqi_band4 y hy0 hy1]
      exact interp_mono _ _ _ _ (by norm_num) hxy
    · rw [calculate_aqi_band5 x hx0 hx1, calculate_aqi_band5 y hy0 hy1]
      exact interp_mono _ _ _ _ (by norm_num) hxy
  · refine ⟨?_, ?_, ?_, ?_, ?_⟩ <;>
      (norm_num [calculate_aqi, PM25_BREAKPOINTS, AQI_BREAKPOINTS, List.zip_cons_cons,
        List.zip_nil_right, band_scan, interp, roundf]) <;>
      decide

/-- C7 witness: monotonicity applied inside the Moderate band at 10 ≤ 20. -/
theorem c7_witness : calculate_aqi 10 ≤ calculate_aqi 20 :=
  c7_monotone_within_bands.1 9.1 35.4 51 100 (by norm_num [PM25_BREAKPOINTS, AQI_BREAKPOINTS])
    10 20 (by norm_num) (by norm_num) (by norm_num) (by norm_num) (by norm_num)

/-- C8: for every concentration contained in no breakpoint band — above 500.0
or strictly inside one of the 0.1-wide gaps between adjacent band edges — the
scan falls through every band and `calculate_aqi` returns the saturation value
500. -/
theorem c8_gap_and_overflow_saturate (x : ℚ)
    (h : 500.0 < x ∨ (9.0 < x ∧ x < 9.1) ∨ (35.4 < x ∧ x < 35.5) ∨
      (55.4 < x ∧ x < 55.5) ∨ (125.4 < x ∧ x < 125.5) ∨ (225.4 < x ∧ x < 225.5)) :
    calculate_aqi x = 500 := by
  unfold calculate_aqi PM25_BREAKPOINTS AQI_BREAKPOINTS
  simp only [List.zip_cons_cons, List.zip_nil_right, band_scan]
  split_ifs with hb0 hb1 hb2 hb3 hb4 hb5 <;>
    first
      | rfl
      | (exfalso
         obtain ⟨hl, hr⟩ := ‹_ ∧ _›
         rcases h with h | ⟨h1, h2⟩ | ⟨h1, h2⟩ | ⟨h1, h2⟩ | ⟨h1, h2⟩ | ⟨h1, h2⟩ <;> linarith)

/-- C8 witness: the gap point 9.05 and the overflow point 600 both saturate. -/
theorem c8_witness : calculate_aqi 9.05 = 500 ∧ calculate_aqi 600 = 500 :=
  ⟨c8_gap_and_overflow_saturate 9.05 (by norm_num),
   c8_gap_and_overflow_saturate 600 (by norm_num)⟩

/-- C9: on every failed acquisition cycle — bus read error, header validation
failure, or checksum validation failure — the cycle aborts before decoding or
AQI computation (the retained AQI is unchanged, and the outcome tag records
the stage that failed), and the previously displayed indicator category (if
one was displayed) is left unchanged.  The hypothesis is the loop's
reachability invariant: the LED is either off or showing the color of the
retained AQI (the only way `set_color` is ever invoked).  The second conjunct
proves that every `cycle_step` preserves this invariant, so it holds in all
reachable states.  Note the read-error arm of the source falls through to the
LED update, re-driving the LED with the old AQI's color — which is exactly the
previously displayed category when one was displayed. -/
theorem c9_failed_cycle_preserves_display (s : CycleState) (r : ReadResult)
    (hinv : s.led = none ∨ s.led = some (get_aqi_color s.aqi)) :
    (((cycle_step s r).2 = .readError ∨ (cycle_step s r).2 = .headerError ∨
        (cycle_step s r).2 = .checksumError) →
      (cycle_step s r).1.aqi = s.aqi ∧
      ∀ c, s.led = some c → (cycle_step s r).1.led = some c) ∧
    ((cycle_step s r).1.led = none ∨
      (cycle_step s r).1.led = some (get_aqi_color (cycle_step s r).1.aqi)) := by
  cases r with
  | err =>
    refine ⟨fun _ => ⟨rfl, fun c hc => ?_⟩, Or.inr rfl⟩
    rcases hinv with hn | hs
    · rw [hn] at hc
      exact Option.noConfusion hc
    · rw [hs] at hc
      rw [← hc]
      rfl
  | ok sensor_data =>
    cases hv : validate_header (sensor_data.take 2) with
    | none =>
      simp [cycle_step, hv, hinv]
    | some res =>
      cases res with
      | error e =>
        simp [cycle_step, hv, hinv]
      | ok u =>
        cases hc : validate_checksum sensor_data with
        | error e =>
          simp [cycle_step, hv, hc, hinv]
        | ok u2 =>
          simp [cycle_step, hv, hc]

/-- C9 witness: a bus read error in a state displaying the category of AQI 7
keeps both the AQI and the displayed category; a checksum failure (32 zero
bytes would have a wrong header anyway — here a magic-headered frame with a
wrong checksum) leaves the state untouched. -/
theorem c9_witness :
    (cycle_step ⟨7, some Color.Green⟩ .err).1.aqi = 7 ∧
    (cycle_step ⟨7, some Color.Green⟩ .err).1.led = some Color.Green :=
  ⟨((c9_failed_cycle_preserves_display ⟨7, some Color.Green⟩ .err
      (Or.inr rfl)).1 (Or.inl rfl)).1,
   ((c9_failed_cycle_preserves_display ⟨7, some Color.Green⟩ .err
      (Or.inr rfl)).1 (Or.inl rfl)).2 Color.Green rfl⟩

end QuickAqi
